import Mathlib

/-!
Verification of the background service-worker controller of the
instagram_automation_extension repository (src/background.js).

The controller is a single-threaded event loop over module-level mutable
state.  We embed it shallowly: the module-level variables become the fields
of `BGState`, each JS function becomes a Lean function on that state, and
the two Chrome event listeners (runtime.onMessage and alarms.onAlarm)
become one `step` function over an `Event` type.  Asynchronous environment
inputs (the current clock, Math.random draws, the content of
chrome.storage, tab lookup / script-injection / sendMessage outcomes) are
collected in an `Env` record supplied to each callback.

Side effects other than state mutation are returned explicitly:
`chrome.tabs.sendMessage` calls appear in `Effects.tabMsgs` and
`saveState` calls (writes to the persistent run-state record) appear in
`Effects.stateWrites`.  Chrome alarms are modelled as part of the state:
`performAlarm` / `batchAlarm` hold the pending `delayInMinutes` value of
the at-most-one pending alarm of each name (`none` = cleared).

Modelling notes:
* JS numbers are modelled as `ℚ` in the state machine (all settings the
  code ships are integers, and the arithmetic performed on them is exact),
  and as `JSNum` (ℚ plus NaN) where NaN propagation of `getRandomInt`
  matters.
* Content-script events are modelled as arriving from the current
  automation tab, i.e. past the `sender.tab.id !== currentTabId` guard of
  the message listener.
* The storage-failure fallback branch of `loadSettingsAndState` is not
  modelled; loads always succeed, returning `Env.loadedSettings` (the
  result of merging the stored record over `DEFAULT_SETTINGS`) and
  `Env.savedState`.
-/

/-- The two automation action types of the extension. -/
inductive ActionType where
  | follow
  | unfollow
deriving DecidableEq

/-- The `request.type` strings that accompany `actionFailed` and `error`
messages from the content script.  `otherKind` stands for any string other
than the three the background script inspects. -/
inductive MsgType where
  | domParsingError
  | clickError
  | noTargetAtIndex
  | otherKind
deriving DecidableEq

/-- The settings record (`DEFAULT_SETTINGS` merged with the stored
settings).  Numeric fields are JS numbers, modelled as `ℚ`. -/
structure Settings where
  intervalMin : ℚ
  intervalMax : ℚ
  actionsPerBatch : ℚ
  pauseBetweenBatchesMin : ℚ
  pauseBetweenBatchesMax : ℚ
  dailyLimit : ℚ
  unfollowNonFollowers : Bool
  unfollowPrivate : Bool
deriving DecidableEq

/-- Constant `DEFAULT_SETTINGS` from background.js. -/
def DEFAULT_SETTINGS : Settings :=
  { intervalMin := 5
    intervalMax := 10
    actionsPerBatch := 10
    pauseBetweenBatchesMin := 300
    pauseBetweenBatchesMax := 600
    dailyLimit := 100
    unfollowNonFollowers := false
    unfollowPrivate := false }

/-- The persisted run-state record stored under
`STORAGE_KEYS.STATE`: daily counter and epoch-millis timestamp. -/
structure RunStateRec where
  processedToday : ℕ
  lastActionTimestamp : ℤ
deriving DecidableEq

/-- The module-level mutable variables of background.js, plus the two
run-controlling Chrome alarms (pending `delayInMinutes`, `none` =
cleared).  `currentTargets` only ever has its length read, so it is
modelled by its length. -/
structure BGState where
  isActive : Bool
  currentTabId : Option ℕ
  actionType : Option ActionType
  settings : Settings
  processedToday : ℕ
  sessionProcessedCount : ℕ
  currentTargets : ℕ
  currentIndex : ℕ
  isPausedForBatch : Bool
  performAlarm : Option ℚ
  batchAlarm : Option ℚ
deriving DecidableEq

/-- Commands the background script sends to the content script via
`chrome.tabs.sendMessage`. -/
inductive TabCmd where
  | startCmd (ty : Option ActionType)
  | stopCmd
  | performCmd
deriving DecidableEq

/-- One `saveState` call: a partial record merged over the stored
run-state (fields absent from the partial record are `none`). -/
structure StateWrite where
  processedToday : Option ℕ
  lastActionTimestamp : Option ℤ
deriving DecidableEq

/-- The externally visible side effects of one callback. -/
structure Effects where
  tabMsgs : List TabCmd
  stateWrites : List StateWrite
deriving DecidableEq

/-- No side effects. -/
def noEffects : Effects := ⟨[], []⟩

/-- Sequencing of effects. -/
def Effects.app (a b : Effects) : Effects :=
  ⟨a.tabMsgs ++ b.tabMsgs, a.stateWrites ++ b.stateWrites⟩

/-- Environment inputs consumed by one callback: the clock, the
`Math.random` draw, the storage contents seen by `loadSettingsAndState`,
and the outcomes of tab lookup, script injection, message delivery and
tab-validity checks. -/
structure Env where
  now : ℤ
  rand : ℚ
  loadedSettings : Settings
  savedState : RunStateRec
  foundTab : Option ℕ
  injectOk : Bool
  msgOk : Bool
  tabValid : Bool
  newSettings : Settings

/-- Milliseconds in 24 hours. -/
def DAY_MS : ℤ := 24 * 60 * 60 * 1000

/-- The run-state part of `loadSettingsAndState`: the stored daily count
is kept unless the stored `lastActionTimestamp` is older than 24 hours
(`savedState.lastActionTimestamp < now - 24*60*60*1000`), in which case
the count resets to 0. -/
def loadProcessedToday (now : ℤ) (saved : RunStateRec) : ℕ :=
  if saved.lastActionTimestamp < now - DAY_MS then 0 else saved.processedToday

/-- Function `loadSettingsAndState` (success path): replaces the in-memory settings
by the merged stored settings and applies the lazy daily reset to
`processedToday`. -/
def loadSettingsAndState (s : BGState) (env : Env) : BGState :=
  { s with
    settings := env.loadedSettings
    processedToday := loadProcessedToday env.now env.savedState }

/-- Function `getRandomInt` of background.js evaluated on exact rationals:
`Math.floor(Math.random() * (max - min + 1)) + min` after
`min = Math.ceil(min)`, `max = Math.floor(max)`, with `r` the
`Math.random()` draw. -/
def getRandomIntQ (r mn mx : ℚ) : ℤ :=
  ⌊r * (((⌊mx⌋ - ⌈mn⌉ + 1 : ℤ) : ℚ))⌋ + ⌈mn⌉

/-- Function `scheduleNextAction(delayMs?)`: no-op unless active; clears the
pending action alarm, computes `delaySeconds` (either `delayMs / 1000` or
`getRandomInt(intervalMin, intervalMax)`), and creates the action alarm
with `delayInMinutes = delaySeconds * 1000 / 60000`. -/
def scheduleNextAction (s : BGState) (env : Env) (delayMs : Option ℚ) : BGState :=
  if s.isActive = false then s
  else
    let s1 := { s with performAlarm := none }
    let delaySeconds : ℚ :=
      match delayMs with
      | some d => d / 1000
      | none => ((getRandomIntQ env.rand s.settings.intervalMin s.settings.intervalMax : ℤ) : ℚ)
    let delayMilliseconds := delaySeconds * 1000
    { s1 with performAlarm := some (delayMilliseconds / 60000) }

/-- Function `scheduleBatchPause()`: leaves the active state, marks the batch
pause, resets the session counter and targets, clears the action alarm
and creates the batch-pause alarm with a random pause length. -/
def scheduleBatchPause (s : BGState) (env : Env) : BGState :=
  let s1 := { s with
    isActive := false
    isPausedForBatch := true
    sessionProcessedCount := 0
    currentTargets := 0
    currentIndex := 0 }
  let pauseSeconds : ℚ :=
    ((getRandomIntQ env.rand s.settings.pauseBetweenBatchesMin
        s.settings.pauseBetweenBatchesMax : ℤ) : ℚ)
  let pauseMilliseconds := pauseSeconds * 1000
  { s1 with
    performAlarm := none
    batchAlarm := some (pauseMilliseconds / 60000) }

/-- Function `stopAutomation()`: early-returns when neither active nor paused for
batch; otherwise resets the session, clears both run alarms, and notifies
the content script when a tab reference is held. -/
def stopAutomation (s : BGState) : BGState × Effects :=
  if s.isActive = false ∧ s.isPausedForBatch = false then (s, noEffects)
  else
    let s1 := { s with
      isActive := false
      isPausedForBatch := false
      actionType := none
      sessionProcessedCount := 0
      currentTargets := 0
      currentIndex := 0
      performAlarm := none
      batchAlarm := none }
    match s.currentTabId with
    | some _ => ({ s1 with currentTabId := none }, ⟨[TabCmd.stopCmd], []⟩)
    | none => (s1, noEffects)

/-- Function `startAutomation(type)`: guarded by `isActive`, reloads settings and
state, refuses when the daily limit is reached, then finds the tab,
injects the content script, sends the start command and schedules the
first action with a 1000 ms settle delay. -/
def startAutomation (ty : ActionType) (s : BGState) (env : Env) : BGState × Effects :=
  if s.isActive = true then (s, noEffects)
  else
    let s1 := loadSettingsAndState s env
    if s1.settings.dailyLimit ≤ (s1.processedToday : ℚ) then (s1, noEffects)
    else
      let s2 := { s1 with
        actionType := some ty
        sessionProcessedCount := 0
        currentTargets := 0
        currentIndex := 0
        isPausedForBatch := false }
      match env.foundTab with
      | none => ({ s2 with isActive := false, actionType := none }, noEffects)
      | some tid =>
        let s3 := { s2 with currentTabId := some tid }
        if env.injectOk = false then
          ({ s3 with isActive := false, actionType := none, currentTabId := none }, noEffects)
        else
          let s4 := { s3 with isActive := true }
          if env.msgOk then
            (scheduleNextAction s4 env (some 1000),
             ⟨[TabCmd.startCmd (some ty)], []⟩)
          else
            let r := stopAutomation s4
            (r.1, Effects.app ⟨[TabCmd.startCmd (some ty)], []⟩ r.2)

/-- Function `executeNextAction()` (the `performActionAlarm` handler): re-loads
state, re-checks the daily and batch limits, validates the tab, and asks
the content script to perform one action. -/
def executeNextAction (s : BGState) (env : Env) : BGState × Effects :=
  if s.isActive = false then (s, noEffects)
  else
    let s1 := loadSettingsAndState s env
    if s1.settings.dailyLimit ≤ (s1.processedToday : ℚ) then stopAutomation s1
    else if s1.settings.actionsPerBatch ≤ (s1.sessionProcessedCount : ℚ) then
      (scheduleBatchPause s1 env, noEffects)
    else
      match s1.currentTabId with
      | none => stopAutomation s1
      | some _ =>
        if env.tabValid = false then stopAutomation s1
        else (s1, ⟨[TabCmd.performCmd], []⟩)

/-- The `actionCompleted` message handler: increments both counters,
persists `{processedToday, lastActionTimestamp: Date.now()}`, then stops
on the daily limit, pauses on the batch limit, or schedules the next
action with the random interval. -/
def handleActionCompleted (s : BGState) (env : Env) : BGState × Effects :=
  let s1 := { s with
    sessionProcessedCount := s.sessionProcessedCount + 1
    processedToday := s.processedToday + 1 }
  let w : StateWrite := ⟨some s1.processedToday, some env.now⟩
  if s1.settings.dailyLimit ≤ (s1.processedToday : ℚ) then
    let r := stopAutomation s1
    (r.1, Effects.app ⟨[], [w]⟩ r.2)
  else if s1.settings.actionsPerBatch ≤ (s1.sessionProcessedCount : ℚ) then
    (scheduleBatchPause s1 env, ⟨[], [w]⟩)
  else
    (scheduleNextAction s1 env none, ⟨[], [w]⟩)

/-- The `actionFailed` message handler: stops on the two critical kinds
(`domParsingError`, `clickError`), otherwise schedules the next action. -/
def handleActionFailed (s : BGState) (env : Env) (kind : MsgType) : BGState × Effects :=
  if kind = MsgType.domParsingError ∨ kind = MsgType.clickError then
    stopAutomation s
  else
    (scheduleNextAction s env none, noEffects)

/-- The `error` message handler: stops on the three critical kinds,
otherwise only logs (no state change, no scheduling). -/
def handleErrorMsg (s : BGState) (kind : MsgType) : BGState × Effects :=
  if kind = MsgType.domParsingError ∨ kind = MsgType.clickError ∨
      kind = MsgType.noTargetAtIndex then
    stopAutomation s
  else
    (s, noEffects)

/-- The `batchPauseAlarm` handler: clears the pause flag, resumes the
active state, re-sends the start command to the content script and
schedules the first action of the new batch with a 1000 ms delay; stops
when the tab reference is lost or messaging fails. -/
def handleBatchPauseAlarm (s : BGState) (env : Env) : BGState × Effects :=
  let s1 := { s with isPausedForBatch := false, isActive := true }
  match s1.currentTabId with
  | some _ =>
    if env.msgOk then
      (scheduleNextAction s1 env (some 1000),
       ⟨[TabCmd.startCmd s1.actionType], []⟩)
    else
      let r := stopAutomation s1
      (r.1, Effects.app ⟨[TabCmd.startCmd s1.actionType], []⟩ r.2)
  | none => stopAutomation s1

/-- The `dailyResetAlarm` handler: zeroes the daily counter and persists
`{processedToday: 0, lastActionTimestamp: Date.now()}`. -/
def handleDailyReset (s : BGState) (env : Env) : BGState × Effects :=
  ({ s with processedToday := 0 }, ⟨[], [⟨some 0, some env.now⟩]⟩)

/-- Every callback the two Chrome listeners of background.js dispatch on:
popup commands, content-script status messages (from the current tab),
alarms, and tab-lifecycle signals. -/
inductive Event where
  | startAutomationCmd (ty : ActionType)
  | stopAutomationCmd
  | saveSettingsCmd
  | csReady
  | csRunning
  | csStopped
  | actionCompleted
  | actionFailed (kind : MsgType)
  | actionBlocked
  | userSkipped
  | targetsFound (n : ℕ)
  | csCompleted
  | errorMsg (kind : MsgType)
  | performActionAlarm
  | batchPauseAlarm
  | dailyResetAlarm
  | tabGone
deriving DecidableEq

/-- One callback of the background event loop: dispatches an `Event` to
the handler background.js runs for it. -/
def step (s : BGState) (env : Env) (ev : Event) : BGState × Effects :=
  match ev with
  | Event.startAutomationCmd ty => startAutomation ty s env
  | Event.stopAutomationCmd => stopAutomation s
  | Event.saveSettingsCmd => ({ s with settings := env.newSettings }, noEffects)
  | Event.csReady => (s, noEffects)
  | Event.csRunning => (s, noEffects)
  | Event.csStopped =>
    if s.isActive = true then stopAutomation s else (s, noEffects)
  | Event.actionCompleted => handleActionCompleted s env
  | Event.actionFailed kind => handleActionFailed s env kind
  | Event.actionBlocked => stopAutomation s
  | Event.userSkipped => (scheduleNextAction s env (some 100), noEffects)
  | Event.targetsFound _ => (s, noEffects)
  | Event.csCompleted => stopAutomation s
  | Event.errorMsg kind => handleErrorMsg s kind
  | Event.performActionAlarm => executeNextAction s env
  | Event.batchPauseAlarm => handleBatchPauseAlarm s env
  | Event.dailyResetAlarm => handleDailyReset s env
  | Event.tabGone =>
    if s.isActive = true ∧ s.currentTabId ≠ none then stopAutomation s
    else (s, noEffects)

/-- The module-level state at service-worker start (before any event). -/
def initState : BGState :=
  { isActive := false
    currentTabId := none
    actionType := none
    settings := DEFAULT_SETTINGS
    processedToday := 0
    sessionProcessedCount := 0
    currentTargets := 0
    currentIndex := 0
    isPausedForBatch := false
    performAlarm := none
    batchAlarm := none }

/-- States the background event loop can reach from service-worker
start. -/
inductive Reachable : BGState → Prop where
  | init : Reachable initState
  | next (s : BGState) (env : Env) (ev : Event) :
      Reachable s → Reachable (step s env ev).1

/-- A JS number for the delay computation: either an exact rational or
NaN.  NaN arises from arithmetic on a missing (`undefined`) or otherwise
non-numeric settings field. -/
inductive JSNum where
  | nan
  | num (q : ℚ)
deriving DecidableEq

/-- Model of `Math.ceil` (NaN-propagating). -/
def jceil : JSNum → JSNum
  | JSNum.nan => JSNum.nan
  | JSNum.num q => JSNum.num (⌈q⌉ : ℚ)

/-- Model of `Math.floor` (NaN-propagating). -/
def jfloor : JSNum → JSNum
  | JSNum.nan => JSNum.nan
  | JSNum.num q => JSNum.num (⌊q⌋ : ℚ)

/-- JS addition (NaN-propagating). -/
def jadd : JSNum → JSNum → JSNum
  | JSNum.num a, JSNum.num b => JSNum.num (a + b)
  | _, _ => JSNum.nan

/-- JS subtraction (NaN-propagating). -/
def jsub : JSNum → JSNum → JSNum
  | JSNum.num a, JSNum.num b => JSNum.num (a - b)
  | _, _ => JSNum.nan

/-- JS multiplication (NaN-propagating). -/
def jmul : JSNum → JSNum → JSNum
  | JSNum.num a, JSNum.num b => JSNum.num (a * b)
  | _, _ => JSNum.nan

/-- JS division, NaN-propagating.  Division by zero is mapped to NaN;
the only divisors used below are the nonzero constants 1000 and 60000. -/
def jdiv : JSNum → JSNum → JSNum
  | JSNum.num a, JSNum.num b => if b = 0 then JSNum.nan else JSNum.num (a / b)
  | _, _ => JSNum.nan

/-- Function `getRandomInt(min, max)` of background.js on JS numbers, with `r` the
`Math.random()` draw:
`Math.floor(r * (max - min + 1)) + min` after `min = Math.ceil(min)` and
`max = Math.floor(max)`.  No clamping of inverted ranges and no NaN guard
is performed. -/
def getRandomIntJS (r : ℚ) (mn mx : JSNum) : JSNum :=
  let m := jceil mn
  let M := jfloor mx
  jadd (jfloor (jmul (JSNum.num r) (jadd (jsub M m) (JSNum.num 1)))) m

/-- The `delayInMinutes` value `scheduleNextAction()` passes to
`chrome.alarms.create` when called without an explicit delay:
`getRandomInt(intervalMin, intervalMax) * 1000 / 60000`. -/
def randomDelayMinutesJS (r : ℚ) (mn mx : JSNum) : JSNum :=
  jdiv (jmul (getRandomIntJS r mn mx) (JSNum.num 1000)) (JSNum.num 60000)

/-- The `statusText` field computed by `getStatus()`. -/
def getStatusText (s : BGState) : String :=
  if s.isActive then
    if s.isPausedForBatch then
      "Paused for batch break (" ++ toString s.sessionProcessedCount ++ "/"
        ++ toString s.settings.actionsPerBatch ++ "). Next action in progress..."
    else
      "Running (" ++ toString s.sessionProcessedCount ++ "/"
        ++ toString s.settings.actionsPerBatch ++ " in batch), "
        ++ toString s.processedToday ++ "/" ++ toString s.settings.dailyLimit
        ++ " today."
  else "Idle"

/-- The `delayInMinutes` value created by `scheduleNextAction()` when it
draws the random interval (rational-valued settings). -/
def randIntervalDelayMin (r : ℚ) (st : Settings) : ℚ :=
  ((getRandomIntQ r st.intervalMin st.intervalMax : ℤ) : ℚ) * 1000 / 60000

/-- The flag combination `isPausedForBatch → ¬isActive` maintained by the
controller. -/
def PauseInv (s : BGState) : Prop :=
  s.isPausedForBatch = true → s.isActive = false

/-- A benign environment for concrete test runs. -/
def env0 : Env :=
  { now := 0
    rand := 0
    loadedSettings := DEFAULT_SETTINGS
    savedState := ⟨0, 0⟩
    foundTab := some 1
    injectOk := true
    msgOk := true
    tabValid := true
    newSettings := DEFAULT_SETTINGS }

/-- Environment whose stored run state already meets the default daily
limit of 100. -/
def envLim : Env :=
  { env0 with savedState := ⟨100, 0⟩ }

/-- Environment whose stored settings put one action per batch, so the
first completed action triggers the batch pause. -/
def envBatch : Env :=
  { env0 with loadedSettings := { DEFAULT_SETTINGS with actionsPerBatch := 1 } }

/-- Environment with a distinctive clock value. -/
def env9 : Env :=
  { env0 with now := 999 }

/-- A mid-run controller state: active on tab 1, no alarm pending. -/
def runningState : BGState :=
  { initState with isActive := true, currentTabId := some 1 }

/-- Claim C6: on every load of the persisted run state, `processedToday`
keeps its stored value when `lastActionTimestamp` is within 24 hours of
the current time, and resets to 0 when the gap exceeds 24 hours. -/
theorem load_daily_reset_window (now : ℤ) (saved : RunStateRec) :
    (now - saved.lastActionTimestamp ≤ DAY_MS →
      loadProcessedToday now saved = saved.processedToday) ∧
    (DAY_MS < now - saved.lastActionTimestamp →
      loadProcessedToday now saved = 0) := by
  have hday : DAY_MS = 86400000 := by norm_num [DAY_MS]
  constructor <;> intro h <;> unfold loadProcessedToday <;> split <;>
    first | rfl | omega

/-- Witness for C6 at concrete inputs: a 3 600 000 ms gap keeps the
stored count 7, while a gap of 100 000 000 ms resets it to 0. -/
theorem load_daily_reset_window_witness :
    loadProcessedToday 90000000 ⟨7, 86400000⟩ = 7 ∧
    loadProcessedToday 100000000 ⟨7, 0⟩ = 0 :=
  ⟨(load_daily_reset_window 90000000 ⟨7, 86400000⟩).1 (by norm_num [DAY_MS]),
   (load_daily_reset_window 100000000 ⟨7, 0⟩).2 (by norm_num [DAY_MS])⟩

/-- Claim C8: `stopAutomation` called while idle (not active, not paused
for batch) returns the state unchanged with no effects, and stopping a
second time after any stop is always such a no-op, so stop composed with
stop equals stop. -/
theorem stop_idempotent (s : BGState) :
    (s.isActive = false → s.isPausedForBatch = false →
      stopAutomation s = (s, noEffects)) ∧
    stopAutomation (stopAutomation s).1 = ((stopAutomation s).1, noEffects) := by
  constructor
  · intro h1 h2
    unfold stopAutomation
    rw [if_pos ⟨h1, h2⟩]
  · by_cases h : s.isActive = false ∧ s.isPausedForBatch = false
    · simp only [stopAutomation, if_pos h]
    · simp only [stopAutomation, if_neg h]
      cases htab : s.currentTabId <;> simp

/-- Witness for C8: stopping from the idle initial state is the
identity, and so is a second stop after stopping `runningState`. -/
theorem stop_idempotent_witness :
    stopAutomation initState = (initState, noEffects) ∧
    stopAutomation (stopAutomation runningState).1 =
      ((stopAutomation runningState).1, noEffects) :=
  ⟨(stop_idempotent initState).1 rfl rfl, (stop_idempotent runningState).2⟩

/-- Claim C7: a `userSkipped` event increments neither `processedToday`
nor `sessionProcessedCount`, and (while active) reschedules the next
action with the constant 100 ms delay instead of the random interval. -/
theorem skip_constant_delay (s : BGState) (env : Env) :
    (step s env Event.userSkipped).1.processedToday = s.processedToday ∧
    (step s env Event.userSkipped).1.sessionProcessedCount =
      s.sessionProcessedCount ∧
    (s.isActive = true →
      (step s env Event.userSkipped).1.performAlarm =
        some ((100 : ℚ) / 60000)) := by
  have hstep : step s env Event.userSkipped =
      (scheduleNextAction s env (some 100), noEffects) := rfl
  rw [hstep]
  unfold scheduleNextAction
  by_cases h : s.isActive = false
  · rw [if_pos h]
    exact ⟨rfl, rfl, fun hA => absurd hA (by simp [h])⟩
  · rw [if_neg h]
    refine ⟨rfl, rfl, fun _ => ?_⟩
    norm_num

/-- Witness for C7 at the concrete `runningState`: counts stay 0 and the
alarm is set to 100 ms. -/
theorem skip_constant_delay_witness :
    (step runningState env0 Event.userSkipped).1.processedToday =
      runningState.processedToday ∧
    (step runningState env0 Event.userSkipped).1.sessionProcessedCount =
      runningState.sessionProcessedCount ∧
    (step runningState env0 Event.userSkipped).1.performAlarm =
      some ((100 : ℚ) / 60000) :=
  ⟨(skip_constant_delay runningState env0).1,
   (skip_constant_delay runningState env0).2.1,
   (skip_constant_delay runningState env0).2.2 rfl⟩

/-- Claim C3: an `actionBlocked` event during a run (active or paused for
batch) reaches idle in that one callback: both flags cleared and both run
alarms cleared, so no batch pause is scheduled. -/
theorem blocked_full_stop (s : BGState) (env : Env)
    (h : s.isActive = true ∨ s.isPausedForBatch = true) :
    (step s env Event.actionBlocked).1.isActive = false ∧
    (step s env Event.actionBlocked).1.isPausedForBatch = false ∧
    (step s env Event.actionBlocked).1.performAlarm = none ∧
    (step s env Event.actionBlocked).1.batchAlarm = none := by
  have hcond : ¬(s.isActive = false ∧ s.isPausedForBatch = false) := by
    rcases h with h | h <;> simp [h]
  unfold step stopAutomation
  rw [if_neg hcond]
  cases htab : s.currentTabId <;> simp

/-- Witness for C3: `actionBlocked` on the concrete `runningState` with a
pending alarm reaches idle with both alarms cleared. -/
theorem blocked_full_stop_witness :
    (step { runningState with performAlarm := some 1 } env0
        Event.actionBlocked).1.isActive = false ∧
    (step { runningState with performAlarm := some 1 } env0
        Event.actionBlocked).1.isPausedForBatch = false ∧
    (step { runningState with performAlarm := some 1 } env0
        Event.actionBlocked).1.performAlarm = none ∧
    (step { runningState with performAlarm := some 1 } env0
        Event.actionBlocked).1.batchAlarm = none :=
  blocked_full_stop { runningState with performAlarm := some 1 } env0
    (Or.inl rfl)

/-- Claim C2: a start command received while idle with the loaded daily
count already at the daily limit never leaves idle: `isActive` stays
false, no message reaches the page agent, and neither run alarm
changes. -/
theorem start_refused_at_daily_limit (ty : ActionType) (s : BGState)
    (env : Env) (hIdle : s.isActive = false)
    (hLim : env.loadedSettings.dailyLimit ≤
      ((loadProcessedToday env.now env.savedState : ℕ) : ℚ)) :
    (step s env (Event.startAutomationCmd ty)).1.isActive = false ∧
    (step s env (Event.startAutomationCmd ty)).2.tabMsgs = [] ∧
    (step s env (Event.startAutomationCmd ty)).1.performAlarm =
      s.performAlarm ∧
    (step s env (Event.startAutomationCmd ty)).1.batchAlarm =
      s.batchAlarm := by
  have hstep : step s env (Event.startAutomationCmd ty) =
      startAutomation ty s env := rfl
  rw [hstep]
  unfold startAutomation loadSettingsAndState
  rw [if_neg (by simp [hIdle])]
  dsimp only
  rw [if_pos (by simpa using hLim)]
  exact ⟨hIdle, rfl, rfl, rfl⟩

/-- Witness for C2: starting from the idle initial state with a stored
count of 100 against the default limit 100 stays idle with no timer and
no page-agent message. -/
theorem start_refused_at_daily_limit_witness :
    (step initState envLim
      (Event.startAutomationCmd ActionType.follow)).1.isActive = false ∧
    (step initState envLim
      (Event.startAutomationCmd ActionType.follow)).2.tabMsgs = [] ∧
    (step initState envLim
      (Event.startAutomationCmd ActionType.follow)).1.performAlarm =
      initState.performAlarm ∧
    (step initState envLim
      (Event.startAutomationCmd ActionType.follow)).1.batchAlarm =
      initState.batchAlarm :=
  start_refused_at_daily_limit ActionType.follow initState envLim rfl
    (by norm_num [envLim, env0, loadProcessedToday, DAY_MS, DEFAULT_SETTINGS])

/-- Lemma: `stopAutomation` always lands in a state satisfying the
pause-implies-inactive flag invariant. -/
theorem stop_pauseInv (s : BGState) : PauseInv (stopAutomation s).1 := by
  unfold stopAutomation PauseInv
  split
  · next hc => exact fun _ => hc.1
  · cases htab : s.currentTabId <;> exact fun _ => rfl

/-- Lemma: `scheduleNextAction` never touches the two lifecycle flags. -/
theorem schedNext_flags (s : BGState) (env : Env) (d : Option ℚ) :
    (scheduleNextAction s env d).isActive = s.isActive ∧
    (scheduleNextAction s env d).isPausedForBatch = s.isPausedForBatch := by
  unfold scheduleNextAction
  split <;> exact ⟨rfl, rfl⟩

/-- Lemma: `startAutomation` preserves the flag invariant. -/
theorem start_pauseInv (ty : ActionType) (s : BGState) (env : Env)
    (h : PauseInv s) : PauseInv (startAutomation ty s env).1 := by
  unfold startAutomation
  split
  · exact h
  · dsimp only
    split
    · exact h
    · cases htab : env.foundTab with
      | none => exact fun _ => rfl
      | some tid =>
        dsimp only
        split
        · exact fun _ => rfl
        · split
          · intro hp
            rw [(schedNext_flags _ env (some 1000)).2] at hp
            simp at hp
          · exact stop_pauseInv _

/-- Lemma: `executeNextAction` preserves the flag invariant. -/
theorem exec_pauseInv (s : BGState) (env : Env) (h : PauseInv s) :
    PauseInv (executeNextAction s env).1 := by
  unfold executeNextAction loadSettingsAndState
  split
  · exact h
  · dsimp only
    split
    · exact stop_pauseInv _
    · split
      · exact fun _ => rfl
      · cases htab : s.currentTabId with
        | none => exact stop_pauseInv _
        | some tid =>
          dsimp only
          by_cases hv : env.tabValid = false
          · rw [if_pos hv]
            exact stop_pauseInv _
          · rw [if_neg hv]
            exact fun hp => h hp

/-- The `actionCompleted` handler preserves the flag invariant. -/
theorem completed_pauseInv (s : BGState) (env : Env) (h : PauseInv s) :
    PauseInv (handleActionCompleted s env).1 := by
  unfold handleActionCompleted
  dsimp only
  split
  · exact stop_pauseInv _
  · split
    · exact fun _ => rfl
    · dsimp only
      intro hp
      rw [(schedNext_flags _ env none).2] at hp
      rw [(schedNext_flags _ env none).1]
      exact h hp

/-- The `actionFailed` handler preserves the flag invariant. -/
theorem failed_pauseInv (s : BGState) (env : Env) (kind : MsgType)
    (h : PauseInv s) : PauseInv (handleActionFailed s env kind).1 := by
  unfold handleActionFailed
  split
  · exact stop_pauseInv _
  · dsimp only
    intro hp
    rw [(schedNext_flags _ env none).2] at hp
    rw [(schedNext_flags _ env none).1]
    exact h hp

/-- The `error` handler preserves the flag invariant. -/
theorem error_pauseInv (s : BGState) (kind : MsgType) (h : PauseInv s) :
    PauseInv (handleErrorMsg s kind).1 := by
  unfold handleErrorMsg
  split
  · exact stop_pauseInv _
  · exact h

/-- The batch-pause alarm handler preserves the flag invariant. -/
theorem batchAlarm_pauseInv (s : BGState) (env : Env) :
    PauseInv (handleBatchPauseAlarm s env).1 := by
  unfold handleBatchPauseAlarm
  dsimp only
  cases htab : s.currentTabId with
  | none => exact stop_pauseInv _
  | some tid =>
    dsimp only
    by_cases hm : env.msgOk = true
    · rw [if_pos hm]
      dsimp only
      intro hp
      rw [(schedNext_flags _ env (some 1000)).2] at hp
      simp at hp
    · rw [if_neg hm]
      exact stop_pauseInv _

/-- Every callback of the event loop preserves the flag invariant. -/
theorem step_pauseInv (s : BGState) (env : Env) (ev : Event)
    (h : PauseInv s) : PauseInv (step s env ev).1 := by
  cases ev with
  | startAutomationCmd ty => exact start_pauseInv ty s env h
  | stopAutomationCmd => exact stop_pauseInv s
  | saveSettingsCmd => exact h
  | csReady => exact h
  | csRunning => exact h
  | csStopped =>
    show PauseInv (if s.isActive = true then stopAutomation s
      else (s, noEffects)).1
    split
    · exact stop_pauseInv s
    · exact h
  | actionCompleted => exact completed_pauseInv s env h
  | actionFailed kind => exact failed_pauseInv s env kind h
  | actionBlocked => exact stop_pauseInv s
  | userSkipped =>
    show PauseInv (scheduleNextAction s env (some 100))
    intro hp
    rw [(schedNext_flags s env (some 100)).2] at hp
    rw [(schedNext_flags s env (some 100)).1]
    exact h hp
  | targetsFound n => exact h
  | csCompleted => exact stop_pauseInv s
  | errorMsg kind => exact error_pauseInv s kind h
  | performActionAlarm => exact exec_pauseInv s env h
  | batchPauseAlarm => exact batchAlarm_pauseInv s env
  | dailyResetAlarm => exact h
  | tabGone =>
    show PauseInv (if s.isActive = true ∧ s.currentTabId ≠ none then
      stopAutomation s else (s, noEffects)).1
    split
    · exact stop_pauseInv s
    · exact h

/-- Every reachable state satisfies the pause-implies-inactive
invariant. -/
theorem reachable_pauseInv (s : BGState) (h : Reachable s) : PauseInv s := by
  induction h with
  | init => exact fun hx => absurd hx (by decide)
  | next s0 env ev h0 ih => exact step_pauseInv s0 env ev ih

/-- Claim C10 (implicit): in every reachable state with
`isPausedForBatch` set, `isActive` is false, so the published status line
during a batch pause is the idle one and the paused status line is never
produced. -/
theorem paused_state_publishes_idle (s : BGState) (h : Reachable s)
    (hp : s.isPausedForBatch = true) :
    s.isActive = false ∧ getStatusText s = "Idle" := by
  have hA := reachable_pauseInv s h hp
  refine ⟨hA, ?_⟩
  unfold getStatusText
  simp [hA]

/-- Witness for C10: driving the concrete machine from start into a
batch pause (one action per batch) yields a reachable paused state whose
status text is the idle one. -/
theorem paused_state_publishes_idle_witness :
    (step (step initState envBatch
        (Event.startAutomationCmd ActionType.follow)).1 envBatch
        Event.actionCompleted).1.isActive = false ∧
    getStatusText (step (step initState envBatch
        (Event.startAutomationCmd ActionType.follow)).1 envBatch
        Event.actionCompleted).1 = "Idle" :=
  paused_state_publishes_idle _
    (Reachable.next _ envBatch Event.actionCompleted
      (Reachable.next _ envBatch (Event.startAutomationCmd ActionType.follow)
        Reachable.init))
    (by decide)

/-- Lemma: `stopAutomation` never writes the persisted run state. -/
theorem stop_writes (s : BGState) :
    (stopAutomation s).2.stateWrites = [] := by
  unfold stopAutomation
  split
  · rfl
  · cases htab : s.currentTabId <;> rfl

/-- Lemma: `startAutomation` never writes the persisted run state. -/
theorem start_writes (ty : ActionType) (s : BGState) (env : Env) :
    (startAutomation ty s env).2.stateWrites = [] := by
  unfold startAutomation
  split
  · rfl
  · dsimp only
    split
    · rfl
    · cases htab : env.foundTab with
      | none => rfl
      | some tid =>
        dsimp only
        split
        · rfl
        · split
          · rfl
          · dsimp only
            show ([] ++ (stopAutomation _).2.stateWrites) = []
            rw [stop_writes]
            rfl

/-- Lemma: `executeNextAction` never writes the persisted run state. -/
theorem exec_writes (s : BGState) (env : Env) :
    (executeNextAction s env).2.stateWrites = [] := by
  unfold executeNextAction loadSettingsAndState
  split
  · rfl
  · dsimp only
    split
    · rw [stop_writes]
    · split
      · rfl
      · cases htab : s.currentTabId with
        | none => rw [stop_writes]
        | some tid =>
          dsimp only
          by_cases hv : env.tabValid = false
          · rw [if_pos hv, stop_writes]
          · rw [if_neg hv]

/-- The batch-pause alarm handler never writes the persisted run
state. -/
theorem batchResume_writes (s : BGState) (env : Env) :
    (handleBatchPauseAlarm s env).2.stateWrites = [] := by
  unfold handleBatchPauseAlarm
  dsimp only
  cases htab : s.currentTabId with
  | none => rw [stop_writes]
  | some tid =>
    dsimp only
    by_cases hm : env.msgOk = true
    · rw [if_pos hm]
    · rw [if_neg hm]
      dsimp only
      show ([] ++ (stopAutomation _).2.stateWrites) = []
      rw [stop_writes]
      rfl

/-- The `actionCompleted` handler persists exactly one write: the
incremented daily count and the current time. -/
theorem completed_writes (s : BGState) (env : Env) :
    (handleActionCompleted s env).2.stateWrites =
      [⟨some (s.processedToday + 1), some env.now⟩] := by
  unfold handleActionCompleted
  dsimp only
  split
  · dsimp only
    show ([⟨some (s.processedToday + 1), some env.now⟩] ++
      (stopAutomation _).2.stateWrites) = _
    rw [stop_writes]
    rfl
  · split <;> rfl

/-- Claim C9 (amended): across every event the loop handles, the
persisted run state is written exactly on `actionCompleted` (incremented
count, current time) and on the daily-reset alarm (zero count, current
time); in particular `lastActionTimestamp` is stamped with the current
time by the daily reset as well, not only by successful actions. -/
theorem state_writes_characterization (s : BGState) (env : Env)
    (ev : Event) :
    (step s env ev).2.stateWrites =
      if ev = Event.actionCompleted then
        [⟨some (s.processedToday + 1), some env.now⟩]
      else if ev = Event.dailyResetAlarm then [⟨some 0, some env.now⟩]
      else [] := by
  cases ev <;>
    simp only [step, reduceCtorEq, if_false, if_true, reduceIte] <;>
    first
    | rfl
    | rw [stop_writes]
    | rw [start_writes]
    | rw [exec_writes]
    | rw [batchResume_writes]
    | rw [completed_writes]
    | (unfold handleActionFailed
       split
       · rw [stop_writes]
       · rfl)
    | (unfold handleErrorMsg
       split
       · rw [stop_writes]
       · rfl)
    | (split
       · rw [stop_writes]
       · rfl)

/-- Counterexample for C9: the daily-reset alarm, which is not a
successful-outcome event, also writes `lastActionTimestamp` with the
current time (999 here). -/
theorem daily_reset_stamps_timestamp :
    (step initState env9 Event.dailyResetAlarm).2.stateWrites =
      [⟨some 0, some 999⟩] ∧
    Event.dailyResetAlarm ≠ Event.actionCompleted :=
  ⟨rfl, by decide⟩

/-- Claim C1: a successful outcome during an active run increments both
counters (the persisted write records the incremented daily count and the
current time); if the incremented daily count reaches the daily limit the
controller fully stops to idle — even if the batch limit is also reached —
else if the incremented session count reaches the batch limit it pauses
for batch, else it schedules the next action with the randomized
interval delay. -/
theorem success_outcome_transitions (s : BGState) (env : Env)
    (hA : s.isActive = true) :
    (step s env Event.actionCompleted).1.processedToday =
      s.processedToday + 1 ∧
    (step s env Event.actionCompleted).2.stateWrites =
      [⟨some (s.processedToday + 1), some env.now⟩] ∧
    (s.settings.dailyLimit ≤ ((s.processedToday + 1 : ℕ) : ℚ) →
      (step s env Event.actionCompleted).1.isActive = false ∧
      (step s env Event.actionCompleted).1.isPausedForBatch = false ∧
      (step s env Event.actionCompleted).1.performAlarm = none ∧
      (step s env Event.actionCompleted).1.batchAlarm = none) ∧
    (¬s.settings.dailyLimit ≤ ((s.processedToday + 1 : ℕ) : ℚ) →
      s.settings.actionsPerBatch ≤ ((s.sessionProcessedCount + 1 : ℕ) : ℚ) →
      (step s env Event.actionCompleted).1.isPausedForBatch = true ∧
      (step s env Event.actionCompleted).1.isActive = false ∧
      (step s env Event.actionCompleted).1.sessionProcessedCount = 0 ∧
      (step s env Event.actionCompleted).1.batchAlarm =
        some (((getRandomIntQ env.rand s.settings.pauseBetweenBatchesMin
          s.settings.pauseBetweenBatchesMax : ℤ) : ℚ) * 1000 / 60000)) ∧
    (¬s.settings.dailyLimit ≤ ((s.processedToday + 1 : ℕ) : ℚ) →
      ¬s.settings.actionsPerBatch ≤ ((s.sessionProcessedCount + 1 : ℕ) : ℚ) →
      (step s env Event.actionCompleted).1.sessionProcessedCount =
        s.sessionProcessedCount + 1 ∧
      (step s env Event.actionCompleted).1.isActive = true ∧
      (step s env Event.actionCompleted).1.performAlarm =
        some (randIntervalDelayMin env.rand s.settings)) := by
  have hstep : step s env Event.actionCompleted =
      handleActionCompleted s env := rfl
  rw [hstep]
  unfold handleActionCompleted
  dsimp only
  by_cases hd : s.settings.dailyLimit ≤ ((s.processedToday + 1 : ℕ) : ℚ)
  · rw [if_pos hd]
    unfold stopAutomation
    dsimp only
    rw [if_neg (by simp [hA])]
    cases htab : s.currentTabId <;>
      exact ⟨rfl, rfl, fun _ => ⟨rfl, rfl, rfl, rfl⟩,
        fun hnd _ => absurd hd hnd, fun hnd _ => absurd hd hnd⟩
  · rw [if_neg hd]
    by_cases hb : s.settings.actionsPerBatch ≤
        ((s.sessionProcessedCount + 1 : ℕ) : ℚ)
    · rw [if_pos hb]
      unfold scheduleBatchPause
      dsimp only
      exact ⟨rfl, rfl, fun hd2 => absurd hd2 hd,
        fun _ _ => ⟨rfl, rfl, rfl, rfl⟩, fun _ hnb => absurd hb hnb⟩
    · rw [if_neg hb]
      unfold scheduleNextAction
      dsimp only
      rw [if_neg (by simp [hA])]
      exact ⟨rfl, rfl, fun hd2 => absurd hd2 hd,
        fun _ hb2 => absurd hb2 hb, fun _ _ => ⟨rfl, hA, rfl⟩⟩

/-- Witness for C1 at the concrete `runningState` (counters 0, default
limits): the daily count becomes 1, the write is persisted, and the next
action is scheduled with the random interval delay. -/
theorem success_outcome_transitions_witness :
    (step runningState env0 Event.actionCompleted).1.processedToday =
      runningState.processedToday + 1 ∧
    (step runningState env0 Event.actionCompleted).2.stateWrites =
      [⟨some (runningState.processedToday + 1), some env0.now⟩] ∧
    (step runningState env0 Event.actionCompleted).1.isActive = true ∧
    (step runningState env0 Event.actionCompleted).1.performAlarm =
      some (randIntervalDelayMin env0.rand runningState.settings) := by
  have h := success_outcome_transitions runningState env0 rfl
  have h5 := h.2.2.2.2
    (by norm_num [runningState, initState, DEFAULT_SETTINGS])
    (by norm_num [runningState, initState, DEFAULT_SETTINGS])
  exact ⟨h.1, h.2.1, h5.2.1, h5.2.2⟩

/-- Counterexample for C5: a non-critical `error` event while running
leaves the state untouched — in particular no next-action timer is
created (the pending-action alarm stays empty), contradicting the claim
that the next action is always scheduled for non-critical error
outcomes. -/
theorem noncritical_error_creates_no_timer :
    runningState.isActive = true ∧ runningState.performAlarm = none ∧
    (step runningState env0 (Event.errorMsg MsgType.otherKind)).1 =
      runningState ∧
    (step runningState env0
      (Event.errorMsg MsgType.otherKind)).1.performAlarm = none :=
  ⟨rfl, rfl, rfl, rfl⟩

/-- Claim C5 (amended): while running, a non-critical `actionFailed`
event keeps the controller running and schedules the next action with
the random interval; a non-critical `error` event keeps the controller
running but creates no timer at all (scheduling is left to the other
outcome paths). -/
theorem noncritical_outcomes_keep_running (s : BGState) (env : Env)
    (hA : s.isActive = true) :
    (∀ k : MsgType, k ≠ MsgType.domParsingError → k ≠ MsgType.clickError →
      (step s env (Event.actionFailed k)).1.isActive = true ∧
      (step s env (Event.actionFailed k)).1.performAlarm =
        some (randIntervalDelayMin env.rand s.settings)) ∧
    (∀ k : MsgType, k ≠ MsgType.domParsingError → k ≠ MsgType.clickError →
      k ≠ MsgType.noTargetAtIndex →
      (step s env (Event.errorMsg k)).1 = s) := by
  constructor
  · intro k h1 h2
    have hstep : step s env (Event.actionFailed k) =
        handleActionFailed s env k := rfl
    rw [hstep]
    unfold handleActionFailed
    rw [if_neg (by simp [h1, h2])]
    unfold scheduleNextAction
    dsimp only
    rw [if_neg (by simp [hA])]
    exact ⟨hA, rfl⟩
  · intro k h1 h2 h3
    have hstep : step s env (Event.errorMsg k) = handleErrorMsg s k := rfl
    rw [hstep]
    unfold handleErrorMsg
    rw [if_neg (by simp [h1, h2, h3])]

/-- Witness for the amended C5 on `runningState`: a non-critical
`actionFailed` schedules the random-interval timer, and a non-critical
`error` leaves the state unchanged. -/
theorem noncritical_outcomes_keep_running_witness :
    (step runningState env0
      (Event.actionFailed MsgType.otherKind)).1.isActive = true ∧
    (step runningState env0
      (Event.actionFailed MsgType.otherKind)).1.performAlarm =
      some (randIntervalDelayMin env0.rand runningState.settings) ∧
    (step runningState env0 (Event.errorMsg MsgType.otherKind)).1 =
      runningState :=
  ⟨((noncritical_outcomes_keep_running runningState env0 rfl).1
      MsgType.otherKind (by decide) (by decide)).1,
   ((noncritical_outcomes_keep_running runningState env0 rfl).1
      MsgType.otherKind (by decide) (by decide)).2,
   (noncritical_outcomes_keep_running runningState env0 rfl).2
      MsgType.otherKind (by decide) (by decide) (by decide)⟩

/-- Counterexample for C4: with a missing/non-numeric `intervalMin`
(NaN after `Math.ceil`), the delay computation performs no guard and the
alarm delay is NaN. -/
theorem missing_bound_gives_nan_delay :
    randomDelayMinutesJS (1 / 2) JSNum.nan (JSNum.num 10) = JSNum.nan ∧
    getRandomIntJS (1 / 2) JSNum.nan (JSNum.num 10) = JSNum.nan := by
  exact ⟨rfl, rfl⟩

/-- Claim C4 (amended): `getRandomInt` performs no clamping or NaN
guarding — a NaN bound propagates into the alarm delay — but for
positive integer bounds, inverted or not, the result is a plain
non-negative number (and lies in the requested range when the bounds are
ordered), so the resulting delay is non-negative. -/
theorem random_delay_positive_integer_bounds (r : ℚ) (a b : ℤ)
    (h0 : 0 ≤ r) (h1 : r < 1) (ha : 1 ≤ a) (hb : 1 ≤ b) :
    ∃ q : ℚ, getRandomIntJS r (JSNum.num a) (JSNum.num b) = JSNum.num q ∧
      0 ≤ q ∧
      randomDelayMinutesJS r (JSNum.num a) (JSNum.num b) =
        JSNum.num (q * 1000 / 60000) ∧
      ((a : ℚ) ≤ (b : ℚ) → (a : ℚ) ≤ q ∧ q ≤ (b : ℚ)) := by
  refine ⟨((⌊r * ((b : ℚ) - (a : ℚ) + 1)⌋ + a : ℤ) : ℚ), ?_, ?_, ?_, ?_⟩
  · unfold getRandomIntJS jceil jfloor jadd jsub jmul
    dsimp only
    rw [Int.ceil_intCast, Int.floor_intCast]
    congr 1
    push_cast
    ring
  · have key : 0 ≤ ⌊r * ((b : ℚ) - (a : ℚ) + 1)⌋ + a := by
      rcases le_or_lt a b with hab | hba
      · have hspan : (0 : ℚ) ≤ (b : ℚ) - (a : ℚ) + 1 := by
          have : (a : ℚ) ≤ (b : ℚ) := by exact_mod_cast hab
          linarith
        have hfl : 0 ≤ ⌊r * ((b : ℚ) - (a : ℚ) + 1)⌋ :=
          Int.floor_nonneg.mpr (mul_nonneg h0 hspan)
        omega
      · have hspan : ((b : ℚ) - (a : ℚ) + 1) ≤ 0 := by
          have : (b : ℚ) + 1 ≤ (a : ℚ) := by exact_mod_cast hba
          linarith
        have h2 : ((b - a + 1 : ℤ) : ℚ) ≤ r * ((b : ℚ) - (a : ℚ) + 1) := by
          push_cast
          nlinarith [mul_nonneg (by linarith : (0 : ℚ) ≤ 1 - r)
            (by linarith : (0 : ℚ) ≤ -((b : ℚ) - (a : ℚ) + 1))]
        have h3 : (b - a + 1 : ℤ) ≤ ⌊r * ((b : ℚ) - (a : ℚ) + 1)⌋ :=
          Int.le_floor.mpr h2
        omega
    exact_mod_cast key
  · unfold randomDelayMinutesJS
    unfold getRandomIntJS jceil jfloor jadd jsub jmul jdiv
    dsimp only
    rw [Int.ceil_intCast, Int.floor_intCast]
    rw [if_neg (by norm_num)]
    congr 2
    push_cast
    ring
  · intro hab
    have hspan : (0 : ℚ) < (b : ℚ) - (a : ℚ) + 1 := by linarith
    have hfl : 0 ≤ ⌊r * ((b : ℚ) - (a : ℚ) + 1)⌋ :=
      Int.floor_nonneg.mpr (mul_nonneg h0 hspan.le)
    have hup : ⌊r * ((b : ℚ) - (a : ℚ) + 1)⌋ < b - a + 1 := by
      apply Int.floor_lt.mpr
      push_cast
      nlinarith
    constructor
    · have : (a : ℤ) ≤ ⌊r * ((b : ℚ) - (a : ℚ) + 1)⌋ + a := by omega
      exact_mod_cast this
    · have : ⌊r * ((b : ℚ) - (a : ℚ) + 1)⌋ + a ≤ (b : ℤ) := by omega
      exact_mod_cast this

/-- Witness for the amended C4 at `r = 0`, bounds 5 and 10. -/
theorem random_delay_positive_integer_bounds_witness :
    ∃ q : ℚ, getRandomIntJS 0 (JSNum.num 5) (JSNum.num 10) = JSNum.num q ∧
      0 ≤ q ∧
      randomDelayMinutesJS 0 (JSNum.num 5) (JSNum.num 10) =
        JSNum.num (q * 1000 / 60000) ∧
      (((5 : ℤ) : ℚ) ≤ ((10 : ℤ) : ℚ) → ((5 : ℤ) : ℚ) ≤ q ∧ q ≤ ((10 : ℤ) : ℚ)) :=
  random_delay_positive_integer_bounds 0 5 10 (by norm_num) (by norm_num)
    (by norm_num) (by norm_num)
